import Mathlib

/-!
Verification of the conversation-orchestration core of the `chatter` repository.

The embedded modules are:
* `src/scripts/testing/ig_state_machine.py` (phase state machine),
* `src/scripts/testing/ig_tension_tracker.py` (escalation tracker),
* `src/scripts/testing/ig_memory.py` (conversation memory store),
* `src/scripts/testing/ig_intent_detector.py` (intent classifier),
* `src/scripts/testing/ig_mood.py` (mood model).

Modelling conventions:
* Machine integers are `Nat`; Python floats that hold exact decimal constants
  (probabilities, mood levels, similarity ratios, confidences) are `ℚ`.
* The regular-expression detectors are abstracted: a detector's verdict on a
  concrete message is passed in as a per-message feature (a `Bool` or an
  `Option String`), and pattern tables are abstracted as functions
  `String → Option String` returning the matched span.  All theorems hold for
  every instantiation of those abstract detectors, hence for the concrete
  regex tables of the source.
* Timestamp fields (`started_at`, `last_activity`, `created_at`,
  `last_active`) and the random-uuid `conversation_id` are I/O-dependent and
  are omitted; no embedded operation reads them.
* The single `random.random()` draw in the tension tracker is passed in
  explicitly as a rational `roll` argument.
-/

-- ===========================================================================
-- Generic string helpers (kernel-computable stand-ins for Python str methods)
-- ===========================================================================

/-- Does the character list start with the given pattern list? -/
def startsWithSeq : List Char → List Char → Bool
  | _, [] => true
  | [], _ :: _ => false
  | a :: as, b :: bs => a == b && startsWithSeq as bs

/-- Does the character list contain the pattern list as a contiguous run?
Stand-in for Python's `pat in s`. -/
def containsSeq : List Char → List Char → Bool
  | [], pat => pat.isEmpty
  | c :: rest, pat => startsWithSeq (c :: rest) pat || containsSeq rest pat

/-- Python `str.lower()` (character-wise). -/
def toLowerStr (s : String) : String := ⟨s.data.map Char.toLower⟩

/-- Python `str.strip()`: drop whitespace from both ends. -/
def trimChars (l : List Char) : List Char :=
  ((l.dropWhile Char.isWhitespace).reverse.dropWhile Char.isWhitespace).reverse

/-- Python `str.strip()` on strings. -/
def trimStr (s : String) : String := ⟨trimChars s.data⟩

/-- Python `l[-n:]`: the most recent `n` entries of a list. -/
def lastN {α : Type} (n : Nat) (l : List α) : List α := l.drop (l.length - n)

-- ===========================================================================
-- ig_state_machine.py : phases and conversation state
-- ===========================================================================

/-- The seven conversation phases (`class Phase`). -/
inductive Phase where
  | OPENER
  | LOCATION
  | SMALL_TALK
  | DEFLECTION
  | OF_PITCH
  | POST_PITCH
  | COLD
deriving DecidableEq, Repr

/-- `COLD_THRESHOLD = 4`: messages in POST_PITCH before going cold. -/
def COLD_THRESHOLD : Nat := 4

/-- `@dataclass ConversationState` (timestamps and the uuid conversation id
omitted; `scenario_id`, `mood`, `sob_story_active` are set only by
`initialize_with_scenario` and read by no embedded operation, and are kept
for completeness). -/
structure ConversationState where
  phase : Phase := Phase.OPENER
  scenario_id : Option String := none
  mood : Option String := none
  sob_story_active : Bool := false
  location_detected : Bool := false
  location : Option String := none
  location_matched : Bool := false
  of_mentioned : Bool := false
  of_mention_count : Nat := 0
  meetup_requests : Nat := 0
  pic_requests : Nat := 0
  sexual_escalation : Bool := false
  message_count : Nat := 0
  fan_message_count : Nat := 0
  her_message_count : Nat := 0
  sob_story_escalation_level : Nat := 0
  images_sent : List String := []
  post_pitch_messages : Nat := 0
  fan_subscribed : Bool := false
deriving DecidableEq, Repr

/-- The freshly constructed `ConversationState()` (all dataclass defaults). -/
def initialState : ConversationState := {}

/-- The detector verdicts for one fan message: the results of
`detect_location`, `detect_meetup_request`, `detect_pic_request`,
`detect_sexual_escalation` and `detect_fan_subscribed` on that message.
These abstract the regex tables of the source. -/
structure FanMsgFeatures where
  location : Option String
  meetup : Bool
  pic : Bool
  sexual : Bool
  subscribed : Bool
deriving DecidableEq, Repr

/-- The detector verdicts for one bot response: the result of
`detect_of_mention`, the `images_sent` argument, and whether any of the
`visiting_patterns` matches the response. -/
structure BotRespFeatures where
  ofMention : Bool
  images : List String
  visiting : Bool
deriving DecidableEq, Repr

/-- `ConversationStateMachine._update_phase`, phase-only part: the function
mutates only `self.state.phase`, so it is rendered as a phase computation.
The `if`-chain mirrors the source's early-`return` priority order. -/
def nextPhase (s : ConversationState) : Phase :=
  if s.phase = Phase.COLD then
    -- Already cold, stay cold (unless they subscribe)
    if s.fan_subscribed = true then Phase.POST_PITCH else Phase.COLD
  else if s.phase = Phase.POST_PITCH then
    -- Check if we should go cold (in POST_PITCH too long without sub)
    if s.fan_subscribed = false ∧ s.post_pitch_messages ≥ COLD_THRESHOLD then Phase.COLD
    else Phase.POST_PITCH
  else if (s.meetup_requests ≥ 2 ∨ s.pic_requests > 0 ∨ s.sexual_escalation = true)
      ∧ s.of_mentioned = false then
    Phase.OF_PITCH
  else if s.meetup_requests = 1 ∧ s.of_mentioned = false then
    Phase.DEFLECTION
  else if s.location_detected = true ∧ s.location_matched = false then
    Phase.LOCATION
  else if s.location_matched = true then
    Phase.SMALL_TALK
  else if s.fan_message_count ≤ 2 then
    Phase.OPENER
  else
    Phase.SMALL_TALK

/-- `ConversationStateMachine._update_phase` as a state transformer. -/
def update_phase (s : ConversationState) : ConversationState :=
  { s with phase := nextPhase s }

/-- The counter updates of `ConversationStateMachine.process_fan_message`
(everything before the final `self._update_phase()` call), rendered
field-wise: `fanCount` is the incremented `fan_message_count` read by the
sexual-escalation check, and `subscribed` is the updated `fan_subscribed`
read by the post-pitch tracking check, exactly as in the sequential source. -/
def fanCounterStep (s : ConversationState) (f : FanMsgFeatures) : ConversationState :=
  let fanCount := s.fan_message_count + 1
  let subscribed := s.fan_subscribed || f.subscribed
  { s with
    message_count := s.message_count + 1,
    fan_message_count := fanCount,
    location_detected := s.location_detected || f.location.isSome,
    location := if f.location.isSome ∧ s.location_detected = false then f.location else s.location,
    meetup_requests := if f.meetup then s.meetup_requests + 1 else s.meetup_requests,
    pic_requests := if f.pic then s.pic_requests + 1 else s.pic_requests,
    sexual_escalation := if f.sexual ∧ fanCount > 3 then true else s.sexual_escalation,
    fan_subscribed := subscribed,
    post_pitch_messages :=
      if s.of_mentioned ∧ subscribed = false then s.post_pitch_messages + 1
      else s.post_pitch_messages }

/-- `ConversationStateMachine.process_fan_message`: counter updates, then
`self._update_phase()`. -/
def process_fan_message (s : ConversationState) (f : FanMsgFeatures) : ConversationState :=
  update_phase (fanCounterStep s f)

/-- `ConversationStateMachine.process_bot_response`, rendered field-wise:
increments `her_message_count`; on an OF mention sets `of_mentioned`, bumps
`of_mention_count` and forces `phase = POST_PITCH`; extends `images_sent`;
sets `location_matched` when a visiting pattern matches. -/
def process_bot_response (s : ConversationState) (f : BotRespFeatures) : ConversationState :=
  { s with
    her_message_count := s.her_message_count + 1,
    of_mentioned := s.of_mentioned || f.ofMention,
    of_mention_count := if f.ofMention then s.of_mention_count + 1 else s.of_mention_count,
    phase := if f.ofMention then Phase.POST_PITCH else s.phase,
    images_sent := s.images_sent ++ f.images,
    location_matched :=
      if s.location_detected ∧ s.location_matched = false ∧ f.visiting then true
      else s.location_matched }

/-- States reachable from a fresh conversation by processing fan messages and
bot responses. -/
inductive Reachable : ConversationState → Prop where
  | init : Reachable initialState
  | fan {s : ConversationState} (f : FanMsgFeatures) :
      Reachable s → Reachable (process_fan_message s f)
  | bot {s : ConversationState} (f : BotRespFeatures) :
      Reachable s → Reachable (process_bot_response s f)

/-- A fan-message feature vector with no detector firing. -/
def plainFanMsg : FanMsgFeatures :=
  { location := none, meetup := false, pic := false, sexual := false, subscribed := false }

/-- A fan-message feature vector where only the meetup detector fires. -/
def meetupFanMsg : FanMsgFeatures :=
  { location := none, meetup := true, pic := false, sexual := false, subscribed := false }

/-- A fan-message feature vector where only the sexual-content detector fires. -/
def sexualFanMsg : FanMsgFeatures :=
  { location := none, meetup := false, pic := false, sexual := true, subscribed := false }

/-- A bot-response feature vector with no OF mention. -/
def plainBotResp : BotRespFeatures := { ofMention := false, images := [], visiting := false }

/-- A bot-response feature vector whose text mentions OF. -/
def ofBotResp : BotRespFeatures := { ofMention := true, images := [], visiting := false }

-- ===========================================================================
-- ig_tension_tracker.py : escalation tracker
-- ===========================================================================

/-- `class TensionLevel(Enum)`: how we respond to escalation attempts. -/
inductive TensionLevel where
  | DEFLECT
  | TEASE
  | HINT
  | REVEAL
deriving DecidableEq, Repr

/-- `class ConversionState(Enum)`: where they are in the OF funnel. -/
inductive ConversionState where
  | PRE_PITCH
  | PITCHED
  | INTERESTED
  | RESISTANT
  | CONVERTED
  | COLD
deriving DecidableEq, Repr

/-- `@dataclass TensionState`: tension/escalation state for one conversation. -/
structure TensionState where
  escalation_count : Nat := 0
  current_level : TensionLevel := TensionLevel.DEFLECT
  conversion_state : ConversionState := ConversionState.PRE_PITCH
  of_revealed : Bool := false
  messages_since_pitch : Nat := 0
  escalation_types : List String := []
  objection_detected : Bool := false
  message_count : Nat := 0
  rapport_score : ℚ := 0
  proactive_pitch_suggested : Bool := false
deriving Repr

/-- `REVEAL_PROBABILITY` table with `DEFAULT_PROBABILITY` fallback:
`get_reveal_probability(escalation_count)` =
`REVEAL_PROBABILITY.get(escalation_count, DEFAULT_PROBABILITY)` where the
table maps 1↦0.05, 2↦0.10, 3↦0.25, 4↦0.50, 5↦0.75 and the default is 0.90. -/
def get_reveal_probability (escalationCount : Nat) : ℚ :=
  if escalationCount = 1 then 1/20
  else if escalationCount = 2 then 1/10
  else if escalationCount = 3 then 1/4
  else if escalationCount = 4 then 1/2
  else if escalationCount = 5 then 3/4
  else 9/10

/-- `should_reveal_of`: the uniform sample `roll` (the `random.random()`
draw, passed explicitly) is below the table probability. -/
def should_reveal_of (escalationCount : Nat) (roll : ℚ) : Prop :=
  roll < get_reveal_probability escalationCount

instance (c : Nat) (r : ℚ) : Decidable (should_reveal_of c r) := by
  unfold should_reveal_of; infer_instance

/-- `TensionTracker.record_escalation` for one conversation's state: returns
the updated state together with the returned `TensionLevel`. -/
def record_escalation (s : TensionState) (intentName : String) (roll : ℚ) :
    TensionState × TensionLevel :=
  -- If we already revealed OF, stay at REVEAL level
  if s.of_revealed then (s, TensionLevel.REVEAL)
  else
    let s1 := { s with escalation_count := s.escalation_count + 1,
                       escalation_types := s.escalation_types ++ [intentName] }
    if should_reveal_of s1.escalation_count roll then
      let s2 := { s1 with current_level := TensionLevel.REVEAL, of_revealed := true }
      (s2, s2.current_level)
    else
      let lvl :=
        if s1.escalation_count = 1 then TensionLevel.DEFLECT
        else if s1.escalation_count = 2 then TensionLevel.TEASE
        else TensionLevel.HINT
      let s2 := { s1 with current_level := lvl }
      (s2, s2.current_level)

/-- `TensionTracker.record_of_pitch`. -/
def record_of_pitch (s : TensionState) : TensionState :=
  { s with of_revealed := true, conversion_state := ConversionState.PITCHED,
           messages_since_pitch := 0 }

/-- `TensionTracker.record_message_after_pitch`. -/
def record_message_after_pitch (s : TensionState) : TensionState :=
  if s.conversion_state = ConversionState.PITCHED then
    let s1 := { s with messages_since_pitch := s.messages_since_pitch + 1 }
    if s1.messages_since_pitch ≥ 3 then
      { s1 with conversion_state := ConversionState.RESISTANT }
    else s1
  else s

/-- `TensionTracker.record_interest`. -/
def record_interest (s : TensionState) : TensionState :=
  { s with conversion_state := ConversionState.INTERESTED }

/-- `TensionTracker.record_resistance`. -/
def record_resistance (s : TensionState) : TensionState :=
  { s with conversion_state := ConversionState.RESISTANT }

/-- `TensionTracker.record_conversion`. -/
def record_conversion (s : TensionState) : TensionState :=
  { s with conversion_state := ConversionState.CONVERTED }

/-- `TensionTracker.record_objection`. -/
def record_objection (s : TensionState) : TensionState :=
  { s with objection_detected := true, conversion_state := ConversionState.RESISTANT }

/-- One tracker call on a conversation's tension state; the escalation call
carries the detected intent name and the random draw. -/
inductive TensionOp where
  | escalation (intentName : String) (roll : ℚ)
  | ofPitch
  | messageAfterPitch
  | interest
  | resistance
  | conversion
  | objection

/-- Apply one tracker call to a tension state. -/
def applyTensionOp (s : TensionState) : TensionOp → TensionState
  | TensionOp.escalation i r => (record_escalation s i r).1
  | TensionOp.ofPitch => record_of_pitch s
  | TensionOp.messageAfterPitch => record_message_after_pitch s
  | TensionOp.interest => record_interest s
  | TensionOp.resistance => record_resistance s
  | TensionOp.conversion => record_conversion s
  | TensionOp.objection => record_objection s

/-- Tension states reachable from the fresh `TensionState()` created by
`TensionTracker.get_state`. -/
inductive TReachable : TensionState → Prop where
  | init : TReachable {}
  | step {s : TensionState} (op : TensionOp) : TReachable s → TReachable (applyTensionOp s op)

-- ===========================================================================
-- ig_memory.py : phrase de-duplication (ConversationMemory.add_phrase)
-- ===========================================================================

/-- `phrase.lower().strip()` in `add_phrase`. -/
def normalize_phrase (phrase : String) : String := trimStr (toLowerStr phrase)

/-- `ConversationMemory.add_phrase` acting on the `used_phrases` list.  The
`difflib.SequenceMatcher(None, normalized, existing).ratio()` similarity is
abstracted as a pluggable function `sim`; the theorems hold for every `sim`.
Returns the `(added?, new used_phrases)` pair. -/
def add_phrase (sim : String → String → ℚ) (usedPhrases : List String) (phrase : String) :
    Bool × List String :=
  let normalized := normalize_phrase phrase
  if normalized.data.isEmpty then (false, usedPhrases)
  else if usedPhrases.any (fun existing => 4/5 < sim normalized existing) then
    (false, usedPhrases)  -- Too similar, skip
  else
    (true, lastN 50 (usedPhrases ++ [normalized]))  -- Keep last 50

/-- Sequentially feed a list of candidate phrases through `add_phrase`,
starting from an empty `used_phrases` list. -/
def run_phrases (sim : String → String → ℚ) (ps : List String) : List String :=
  ps.foldl (fun acc p => (add_phrase sim acc p).2) []

-- ===========================================================================
-- ig_memory.py : MemoryManager durable-record loading
-- ===========================================================================

/-- JSON values, as produced by `json.loads`. -/
inductive Json where
  | null
  | bool (b : Bool)
  | num (n : Int)
  | str (s : String)
  | arr (elems : List Json)
  | obj (fields : List (String × Json))

/-- Python `dict[key]` lookup on a JSON object's field list. -/
def lookupField : List (String × Json) → String → Option Json
  | [], _ => none
  | (k, v) :: rest, key => if k = key then some v else lookupField rest key

/-- Python `dict.get(key, default)`. -/
def dictGet (fields : List (String × Json)) (key : String) (dflt : Json) : Json :=
  (lookupField fields key).getD dflt

/-- The Python exceptions relevant to `MemoryManager.get_memory`: `KeyError`
(missing dict key, caught by the source) and `TypeError` (indexing a
non-dict with a string key, not caught by the source).  A `JSONDecodeError`
is represented by the `unreadable` file state below. -/
inductive PyErr where
  | keyError
  | typeError
deriving DecidableEq, Repr

/-- The durable per-fan record as `ConversationMemory.from_dict` builds it:
`fan_id` from `data["fan_id"]`, the remaining fields from `data.get` with
the dataclass defaults (timestamps omitted).  Field payloads are kept as the
raw JSON values, which `from_dict` does not validate. -/
structure MemoryRec where
  fan_id : Json
  messages : Json
  used_phrases : Json
  fan_profile : Json
  state : Json
  topics_covered : Json

/-- The `fan_profile` dataclass default. -/
def defaultFanProfile : Json :=
  Json.obj [("name", Json.null), ("location", Json.null), ("interests", Json.arr []),
            ("job", Json.null), ("age", Json.null), ("relationship_status", Json.null),
            ("platform_preferences", Json.arr [])]

/-- The `state` dataclass default. -/
def defaultStateDict : Json :=
  Json.obj [("phase", Json.str ("opener")), ("of_mentioned", Json.bool false),
            ("of_subscribed", Json.bool false), ("meetup_requests", Json.num 0),
            ("rapport_level", Json.num 1), ("conversation_count", Json.num 0)]

/-- A fresh `ConversationMemory(fan_id=fan_id)` record. -/
def freshMemory (fanId : String) : MemoryRec :=
  { fan_id := Json.str fanId, messages := Json.arr [], used_phrases := Json.arr [],
    fan_profile := defaultFanProfile, state := defaultStateDict,
    topics_covered := Json.arr [] }

/-- `ConversationMemory.from_dict(data)`: `data["fan_id"]` raises `KeyError`
on a dict without the key and `TypeError` on a non-dict value; the other
fields use `data.get` with the dataclass defaults. -/
def memory_from_dict : Json → Except PyErr MemoryRec
  | Json.obj fields =>
    match lookupField fields ("fan_id") with
    | none => Except.error PyErr.keyError
    | some fid =>
      Except.ok { fan_id := fid,
                  messages := dictGet fields ("messages") (Json.arr []),
                  used_phrases := dictGet fields ("used_phrases") (Json.arr []),
                  fan_profile := dictGet fields ("fan_profile") defaultFanProfile,
                  state := dictGet fields ("state") defaultStateDict,
                  topics_covered := dictGet fields ("topics_covered") (Json.arr []) }
  | _ => Except.error PyErr.typeError

/-- What the durable file `{fan_id}.json` holds: absent, present but not
valid JSON (`json.loads` raises `JSONDecodeError`), or present and parsing
to a JSON value. -/
inductive StoredFile where
  | missing
  | unreadable
  | content (j : Json)

/-- `MemoryManager.get_memory`: returns `none` when the file is absent; the
`except (json.JSONDecodeError, KeyError)` clause turns those two failures
into `none`; any other exception propagates. -/
def get_memory (file : StoredFile) : Except PyErr (Option MemoryRec) :=
  match file with
  | StoredFile.missing => Except.ok none
  | StoredFile.unreadable => Except.ok none
  | StoredFile.content j =>
    match memory_from_dict j with
    | Except.ok m => Except.ok (some m)
    | Except.error PyErr.keyError => Except.ok none
    | Except.error PyErr.typeError => Except.error PyErr.typeError

/-- `MemoryManager.get_or_create_memory`: load, or create a fresh record. -/
def get_or_create_memory (fanId : String) (file : StoredFile) : Except PyErr MemoryRec :=
  match get_memory file with
  | Except.ok none => Except.ok (freshMemory fanId)
  | Except.ok (some m) => Except.ok m
  | Except.error e => Except.error e

-- ===========================================================================
-- ig_intent_detector.py : intent classifier
-- ===========================================================================

/-- `@dataclass Intent`: detected intent with confidence. -/
structure Intent where
  name : String
  confidence : ℚ
  raw_match : Option String := none
deriving Repr

/-- An abstract compiled pattern: `pattern.search(msg)` returning
`match.group()` (the matched span) or `None`. -/
def PatternFn : Type := String → Option String

/-- The inner loop of `detect_intent`: first pattern of one intent that
matches the message. -/
def firstPatternMatch : List PatternFn → String → Option String
  | [], _ => none
  | p :: rest, msg =>
    match p msg with
    | some m => some m
    | none => firstPatternMatch rest msg

/-- The outer loop of `detect_intent`: scan intents in priority order, each
intent's patterns in order; first match wins.  The table is
`INTENT_PRIORITY` paired with `INTENT_PATTERNS.get`. -/
def firstIntentMatch : List (String × List PatternFn) → String → Option (String × String)
  | [], _ => none
  | (intentName, pats) :: rest, msg =>
    match firstPatternMatch pats msg with
    | some m => some (intentName, m)
    | none => firstIntentMatch rest msg

/-- `detect_intent(message)`: lowercase and strip the message, scan the
pattern table, and compute
`confidence = min(0.5 + (match_len / max(msg_len, 1)) * 0.5, 1.0)`;
fall back to `GENERIC` with confidence 0.5. -/
def detect_intent (table : List (String × List PatternFn)) (message : String) : Intent :=
  let msgLower := trimStr (toLowerStr message)
  match firstIntentMatch table msgLower with
  | some (intentName, m) =>
    { name := intentName,
      confidence := min ((1:ℚ)/2 + ((m.length : ℚ) / ((max msgLower.length 1 : Nat) : ℚ)) * (1/2)) 1,
      raw_match := some m }
  | none => { name := ("GENERIC"), confidence := 1/2, raw_match := none }

-- ===========================================================================
-- ig_mood.py : mood model
-- ===========================================================================

/-- `@dataclass MoodState`: engagement / warmth / patience in [0,1]. -/
structure MoodState where
  engagement : ℚ := 1/2
  warmth : ℚ := 1/2
  patience : ℚ := 1
deriving Repr

/-- `pushy_intents` from `MoodState.update`. -/
def pushyIntents : List String := ["PIC_REQUEST", "MEETUP_REQUEST", "CONTACT_REQUEST", "SEXUAL"]

/-- `demanding_words` from `MoodState.update`. -/
def demandingWords : List String :=
  ["send me", "give me", "show me", "i want", "now", "cmon", "come on"]

/-- `sweet_words` from `MoodState.update`. -/
def sweetWords : List String :=
  ["beautiful", "gorgeous", "amazing", "lovely", "sweet", "nice to meet", "appreciate"]

/-- `playful_indicators` from `MoodState.update`. -/
def playfulIndicators : List String := ["haha", "lol", "lmao", "😂", "🤣", "jk", "joking"]

/-- Python `word in msg` substring test on strings. -/
def strIn (w msg : String) : Bool := containsSeq msg.data w.data

/-- `MoodState.update(fan_message, intent)`.  The module-level constant
lists `BORING_OPENERS` and `CREEPY_WORDS` (imported from `constants`) are
parameters; every theorem below holds for all values of those lists.  The
delta chain follows the source line by line, and the three fields are
clamped to [0,1] at the end. -/
def MoodState.update (boringOpeners creepyWords : List String) (m : MoodState)
    (fanMessage intent : String) : MoodState :=
  let msgLower := trimStr (toLowerStr fanMessage)
  -- Boring openers = less engagement
  let engagement :=
    if boringOpeners.contains msgLower ∨ msgLower.length ≤ 3 then m.engagement - 1/10
    else m.engagement
  -- Longer/thoughtful messages = more engagement
  let engagement := if fanMessage.length > 50 then engagement + 1/10 else engagement
  -- Questions show interest = more engagement
  let engagement := if fanMessage.data.contains '?' then engagement + 1/20 else engagement
  -- Pushy requests = less patience
  let patience := if pushyIntents.contains intent then m.patience - 3/20 else m.patience
  -- Compliments = more warmth (if not creepy)
  let warmth :=
    if intent = ("COMPLIMENT") then
      if creepyWords.any (fun w => strIn w msgLower) then m.warmth - 1/20
      else m.warmth + 1/10
    else m.warmth
  -- Rude/demanding behavior = less warmth and patience
  let demanding := demandingWords.any (fun w => strIn w msgLower)
  let patience := if demanding then patience - 1/20 else patience
  let warmth := if demanding then warmth - 1/20 else warmth
  -- Sweet/genuine behavior = more warmth
  let warmth :=
    if sweetWords.any (fun w => strIn w msgLower) ∧ intent ≠ ("SEXUAL") then warmth + 1/20
    else warmth
  -- Funny/playful = more engagement and warmth
  let playful := playfulIndicators.any (fun w => strIn w msgLower)
  let engagement := if playful then engagement + 1/20 else engagement
  let warmth := if playful then warmth + 3/100 else warmth
  -- Clamp all values between 0 and 1
  { engagement := max 0 (min 1 engagement),
    warmth := max 0 (min 1 warmth),
    patience := max 0 (min 1 patience) }

-- ===========================================================================
-- Concrete inputs used to instantiate the theorems
-- ===========================================================================

/-- A POST_PITCH state: the bot's first response mentions OF. -/
def postPitchState : ConversationState := process_bot_response initialState ofBotResp

/-- Four further fan messages in POST_PITCH without a subscription: the
conversation goes cold (`post_pitch_messages` reaches `COLD_THRESHOLD`). -/
def coldTrace : ConversationState :=
  process_fan_message (process_fan_message (process_fan_message
    (process_fan_message postPitchState plainFanMsg) plainFanMsg) plainFanMsg) plainFanMsg

/-- A trivial similarity function (no pair is ever similar). -/
def simZero : String → String → ℚ := fun _ _ => 0

/-- Sixty pairwise-distinct candidate phrases. -/
def phrases60 : List String := (List.range 60).map (fun i => ("p") ++ toString i)

/-- A one-intent pattern table whose single pattern matches the message
`hey` (with matched span `hey`). -/
def greetTable : List (String × List PatternFn) :=
  [(("GREETING"), [fun s => if s = ("hey") then some ("hey") else none])]

-- ===========================================================================
-- Helper lemmas
-- ===========================================================================

/-- `_update_phase` can land in POST_PITCH or COLD only from POST_PITCH or
COLD: every other branch of the transition chain yields one of the other
five phases. -/
theorem nextPhase_post_or_cold {s : ConversationState}
    (h : nextPhase s = Phase.POST_PITCH ∨ nextPhase s = Phase.COLD) :
    s.phase = Phase.POST_PITCH ∨ s.phase = Phase.COLD := by
  unfold nextPhase at h
  repeat' split at h
  all_goals simp_all

/-- On every reachable state, being in POST_PITCH or COLD implies the OF
reveal has been mentioned (`of_mentioned` is set by the very bot response
that first forces POST_PITCH and is never cleared). -/
theorem reachable_post_cold_of_mentioned {s : ConversationState} (h : Reachable s) :
    (s.phase = Phase.POST_PITCH ∨ s.phase = Phase.COLD) → s.of_mentioned = true := by
  induction h with
  | init => intro hp; rcases hp with hp | hp <;> simp [initialState] at hp
  | @fan t f hr ih =>
    intro hp
    exact ih (nextPhase_post_or_cold (s := fanCounterStep t f) hp)
  | @bot t f hr ih =>
    intro hp
    simp only [process_bot_response] at hp
    show (t.of_mentioned || f.ofMention) = true
    cases hof : f.ofMention with
    | true => simp
    | false =>
      rw [Bool.or_false]
      rw [hof] at hp
      simp only [Bool.false_eq_true, if_false] at hp
      exact ih hp

/-- When the OF-pitch trigger condition fails, `_update_phase` cannot yield
OF_PITCH. -/
theorem nextPhase_ne_of_pitch {s : ConversationState}
    (h : ¬ (s.meetup_requests ≥ 2 ∨ s.pic_requests > 0 ∨ s.sexual_escalation = true)) :
    nextPhase s ≠ Phase.OF_PITCH := by
  unfold nextPhase
  repeat' split
  all_goals simp_all

-- ===========================================================================
-- Claim C1
-- ===========================================================================

/-- Claim C1, counterexample: after processing one fan message and one bot
response, `fan_message_count = 1` and `her_message_count = 1` but
`message_count = 1` (only `process_fan_message` increments it), so the
claimed invariant `fan_message_count + her_message_count = message_count`
fails on this concrete run. -/
theorem c1_counterexample :
    ¬ ((process_bot_response (process_fan_message initialState plainFanMsg) plainBotResp).fan_message_count
        + (process_bot_response (process_fan_message initialState plainFanMsg) plainBotResp).her_message_count
      = (process_bot_response (process_fan_message initialState plainFanMsg) plainBotResp).message_count) := by
  decide

/-- Claim C1 (amended): `message_count` counts only processed fan messages:
on every reachable conversation state `message_count = fan_message_count`;
bot responses increment only `her_message_count`, which is not part of the
total. -/
theorem c1_message_count_counts_fan_only (s : ConversationState) (h : Reachable s) :
    s.message_count = s.fan_message_count := by
  induction h with
  | init => rfl
  | fan f hr ih => exact congrArg (· + 1) ih
  | bot f hr ih => exact ih

/-- Witness for C1 (amended) at a concrete reachable state. -/
theorem c1_message_count_counts_fan_only_witness :
    (process_fan_message initialState plainFanMsg).message_count
      = (process_fan_message initialState plainFanMsg).fan_message_count :=
  c1_message_count_counts_fan_only _ (Reachable.fan plainFanMsg Reachable.init)

-- ===========================================================================
-- Claim C2
-- ===========================================================================

/-- Claim C2: with the reveal not yet mentioned (and the snapshot not in the
two reveal-only phases POST_PITCH/COLD — part 2 shows reachable snapshots
with `of_mentioned = false` are never in those phases), `_update_phase`
yields OF_PITCH whenever `meetup_requests ≥ 2` or `pic_requests > 0` or
`sexual_escalation` is set, and DEFLECTION when that trigger fails and
`meetup_requests = 1`; driving `meetup_requests` 0 → 1 → 2 with no reveal
mention takes the phase OPENER → DEFLECTION → OF_PITCH. -/
theorem c2_pitch_and_deflection_rules :
    (∀ s : ConversationState,
        s.of_mentioned = false → s.phase ≠ Phase.COLD → s.phase ≠ Phase.POST_PITCH →
        ((s.meetup_requests ≥ 2 ∨ s.pic_requests > 0 ∨ s.sexual_escalation = true) →
            (update_phase s).phase = Phase.OF_PITCH)
        ∧ (¬ (s.meetup_requests ≥ 2 ∨ s.pic_requests > 0 ∨ s.sexual_escalation = true) →
            s.meetup_requests = 1 → (update_phase s).phase = Phase.DEFLECTION))
    ∧ (∀ s : ConversationState, Reachable s → s.of_mentioned = false →
        s.phase ≠ Phase.COLD ∧ s.phase ≠ Phase.POST_PITCH)
    ∧ (initialState.phase = Phase.OPENER
        ∧ (process_fan_message initialState meetupFanMsg).meetup_requests = 1
        ∧ (process_fan_message initialState meetupFanMsg).phase = Phase.DEFLECTION
        ∧ (process_fan_message (process_fan_message initialState meetupFanMsg)
            meetupFanMsg).meetup_requests = 2
        ∧ (process_fan_message (process_fan_message initialState meetupFanMsg)
            meetupFanMsg).phase = Phase.OF_PITCH) := by
  refine ⟨?_, ?_, ?_⟩
  · intro s hof hc hp
    constructor
    · intro htrig
      show nextPhase s = Phase.OF_PITCH
      unfold nextPhase
      rw [if_neg hc, if_neg hp, if_pos ⟨htrig, hof⟩]
    · intro htrig hmu
      show nextPhase s = Phase.DEFLECTION
      unfold nextPhase
      rw [if_neg hc, if_neg hp, if_neg (fun h => htrig h.1), if_pos ⟨hmu, hof⟩]
  · intro s hr hof
    constructor
    · intro hc
      have := reachable_post_cold_of_mentioned hr (Or.inr hc)
      rw [hof] at this
      exact Bool.false_ne_true this
    · intro hp
      have := reachable_post_cold_of_mentioned hr (Or.inl hp)
      rw [hof] at this
      exact Bool.false_ne_true this
  · decide

/-- Witness for C2 at a concrete snapshot with two meetup requests. -/
theorem c2_pitch_and_deflection_rules_witness :
    (update_phase { meetup_requests := 2 : ConversationState }).phase = Phase.OF_PITCH :=
  (c2_pitch_and_deflection_rules.1 { meetup_requests := 2 } rfl
    (by decide) (by decide)).1 (Or.inl (by decide))

-- ===========================================================================
-- Claim C8
-- ===========================================================================

/-- Claim C8, counterexample: a conversation that has gone COLD without a
subscription is moved back to POST_PITCH by `process_bot_response` as soon
as the bot's own response matches the OF-mention patterns, with
`fan_subscribed` still false — so a detected conversion is not the only
exit from the cold phase. -/
theorem c8_counterexample :
    coldTrace.phase = Phase.COLD ∧ coldTrace.fan_subscribed = false
    ∧ (process_bot_response coldTrace ofBotResp).phase = Phase.POST_PITCH
    ∧ (process_bot_response coldTrace ofBotResp).fan_subscribed = false := by
  decide

/-- Claim C8 (amended): once a conversion is detected (`fan_subscribed`),
`_update_phase` never yields COLD; `_update_phase` leaves COLD only for
POST_PITCH and only when `fan_subscribed` is set, and a fan message exits
COLD only if it set `fan_subscribed`; however a bot response whose text
matches the OF-mention patterns also forces POST_PITCH from COLD (the
counterexample) — absent such a mention, bot responses keep the phase. -/
theorem c8_cold_exit_discipline :
    (∀ s : ConversationState, s.fan_subscribed = true →
        (update_phase s).phase ≠ Phase.COLD)
    ∧ (∀ s : ConversationState, s.phase = Phase.COLD →
        (update_phase s).phase = Phase.COLD
        ∨ ((update_phase s).phase = Phase.POST_PITCH ∧ s.fan_subscribed = true))
    ∧ (∀ (s : ConversationState) (f : BotRespFeatures), s.phase = Phase.COLD →
        f.ofMention = false → (process_bot_response s f).phase = Phase.COLD)
    ∧ (∀ (s : ConversationState) (f : FanMsgFeatures), s.phase = Phase.COLD →
        (process_fan_message s f).phase ≠ Phase.COLD →
        (process_fan_message s f).fan_subscribed = true) := by
  refine ⟨?_, ?_, ?_, ?_⟩
  · intro s hsub
    show nextPhase s ≠ Phase.COLD
    unfold nextPhase
    repeat' split
    all_goals simp_all
  · intro s hc
    show (nextPhase s = Phase.COLD ∨ (nextPhase s = Phase.POST_PITCH ∧ s.fan_subscribed = true))
    unfold nextPhase
    rw [if_pos hc]
    by_cases hsub : s.fan_subscribed = true
    · rw [if_pos hsub]; exact Or.inr ⟨rfl, hsub⟩
    · rw [if_neg hsub]; exact Or.inl rfl
  · intro s f hc hof
    show (if f.ofMention then Phase.POST_PITCH else s.phase) = Phase.COLD
    rw [hof]
    simpa using hc
  · intro s f hc hne
    by_cases hsub : (fanCounterStep s f).fan_subscribed = true
    · exact hsub
    · exfalso
      apply hne
      show nextPhase (fanCounterStep s f) = Phase.COLD
      unfold nextPhase
      rw [if_pos (show (fanCounterStep s f).phase = Phase.COLD from hc), if_neg hsub]

/-- Witness for C8 (amended) at the concrete cold state. -/
theorem c8_cold_exit_discipline_witness :
    (update_phase coldTrace).phase = Phase.COLD
    ∨ ((update_phase coldTrace).phase = Phase.POST_PITCH ∧ coldTrace.fan_subscribed = true) :=
  c8_cold_exit_discipline.2.1 coldTrace (by decide)

-- ===========================================================================
-- Claim C10
-- ===========================================================================

/-- Claim C10: processing a fan message that matches the sexual-content
patterns sets the sticky `sexual_escalation` flag exactly when the updated
`fan_message_count` exceeds 3; within the first three fan messages the flag
stays false, and such a message — with no other pitch trigger pending —
cannot put the conversation in OF_PITCH. -/
theorem c10_sexual_flag_needs_four_messages :
    (∀ (s : ConversationState) (f : FanMsgFeatures), f.sexual = true →
        (process_fan_message s f).sexual_escalation
          = (s.sexual_escalation || decide (s.fan_message_count + 1 > 3)))
    ∧ (∀ (s : ConversationState) (f : FanMsgFeatures),
        f.sexual = true → f.meetup = false → f.pic = false →
        s.fan_message_count + 1 ≤ 3 → s.sexual_escalation = false →
        s.meetup_requests ≤ 1 → s.pic_requests = 0 →
        (process_fan_message s f).sexual_escalation = false
        ∧ (process_fan_message s f).phase ≠ Phase.OF_PITCH) := by
  constructor
  · intro s f hsex
    show (if f.sexual ∧ s.fan_message_count + 1 > 3 then true else s.sexual_escalation)
        = (s.sexual_escalation || decide (s.fan_message_count + 1 > 3))
    by_cases h3 : s.fan_message_count + 1 > 3
    · rw [if_pos ⟨by simp [hsex], h3⟩]
      simp [h3]
    · rw [if_neg (fun hh => h3 hh.2)]
      simp [h3]
  · intro s f hsex hmu hpic hcnt hflag hm hp
    have hflag' : (fanCounterStep s f).sexual_escalation = false := by
      show (if f.sexual ∧ s.fan_message_count + 1 > 3 then true else s.sexual_escalation) = false
      rw [if_neg (fun hh => absurd hh.2 (by omega))]
      exact hflag
    have hmu' : (fanCounterStep s f).meetup_requests = s.meetup_requests := by
      show (if f.meetup then s.meetup_requests + 1 else s.meetup_requests) = s.meetup_requests
      rw [hmu]
      simp
    have hpic' : (fanCounterStep s f).pic_requests = s.pic_requests := by
      show (if f.pic then s.pic_requests + 1 else s.pic_requests) = s.pic_requests
      rw [hpic]
      simp
    refine ⟨hflag', ?_⟩
    show nextPhase (fanCounterStep s f) ≠ Phase.OF_PITCH
    apply nextPhase_ne_of_pitch
    rw [hmu', hpic', hflag']
    rintro (h | h | h)
    · omega
    · omega
    · exact Bool.false_ne_true h

/-- Witness for C10 at the very first fan message of a conversation. -/
theorem c10_sexual_flag_needs_four_messages_witness :
    (process_fan_message initialState sexualFanMsg).sexual_escalation = false
    ∧ (process_fan_message initialState sexualFanMsg).phase ≠ Phase.OF_PITCH :=
  c10_sexual_flag_needs_four_messages.2 initialState sexualFanMsg rfl rfl rfl
    (by decide) rfl (by decide) rfl

-- ===========================================================================
-- Claim C3
-- ===========================================================================

/-- `record_escalation` on a conversation whose OF is already revealed is a
no-op returning REVEAL. -/
theorem record_escalation_of_revealed (t : TensionState) (i : String) (r : ℚ)
    (h : t.of_revealed = true) :
    record_escalation t i r = (t, TensionLevel.REVEAL) := by
  unfold record_escalation
  rw [if_pos h]

/-- `record_message_after_pitch` touches neither `of_revealed` nor
`current_level`. -/
theorem record_message_after_pitch_preserves (t : TensionState) :
    (record_message_after_pitch t).of_revealed = t.of_revealed
    ∧ (record_message_after_pitch t).current_level = t.current_level := by
  simp only [record_message_after_pitch]
  repeat' split
  all_goals exact ⟨rfl, rfl⟩

/-- On every reachable tension state, `current_level = REVEAL` implies
`of_revealed`: `record_escalation` sets the two together and no other
tracker call writes `current_level`. -/
theorem treachable_level_reveal_imp_revealed {s : TensionState} (h : TReachable s) :
    s.current_level = TensionLevel.REVEAL → s.of_revealed = true := by
  induction h with
  | init => intro hl; exact absurd hl (by decide)
  | @step t op hr ih =>
    cases op with
    | escalation i r =>
      intro hl
      show (record_escalation t i r).1.of_revealed = true
      by_cases hrev : t.of_revealed = true
      · rw [record_escalation_of_revealed t i r hrev]
        exact hrev
      · have hl' : (record_escalation t i r).1.current_level = TensionLevel.REVEAL := hl
        simp only [record_escalation] at hl' ⊢
        rw [if_neg hrev] at hl' ⊢
        by_cases hroll : should_reveal_of (t.escalation_count + 1) r
        · rw [if_pos hroll]
        · rw [if_neg hroll] at hl'
          exfalso
          revert hl'
          by_cases h1 : t.escalation_count + 1 = 1
          · simp [h1]
          · by_cases h2 : t.escalation_count + 1 = 2 <;> simp [h1, h2]
    | ofPitch => intro hl; rfl
    | messageAfterPitch =>
      intro hl
      have hp := record_message_after_pitch_preserves t
      show (record_message_after_pitch t).of_revealed = true
      rw [hp.1]
      apply ih
      rw [← hp.2]
      exact hl
    | interest => exact fun hl => ih hl
    | resistance => exact fun hl => ih hl
    | conversion => exact fun hl => ih hl
    | objection => exact fun hl => ih hl

/-- Claim C3: once the reveal has been reached (`of_revealed`), every later
`record_escalation` call returns REVEAL and leaves the state — in
particular `escalation_count` — unchanged; and on every reachable tension
state the tension level, once REVEAL, stays REVEAL under every tracker
call, for any intent and any random draw. -/
theorem c3_reveal_is_terminal :
    (∀ (s : TensionState) (i : String) (r : ℚ), s.of_revealed = true →
        record_escalation s i r = (s, TensionLevel.REVEAL))
    ∧ (∀ s : TensionState, TReachable s → s.current_level = TensionLevel.REVEAL →
        ∀ op : TensionOp, (applyTensionOp s op).current_level = TensionLevel.REVEAL) := by
  constructor
  · exact record_escalation_of_revealed
  · intro s hr hl op
    have hrev := treachable_level_reveal_imp_revealed hr hl
    cases op with
    | escalation i r =>
      show (record_escalation s i r).1.current_level = TensionLevel.REVEAL
      rw [record_escalation_of_revealed s i r hrev]
      exact hl
    | ofPitch => exact hl
    | messageAfterPitch =>
      have hp := record_message_after_pitch_preserves s
      show (record_message_after_pitch s).current_level = TensionLevel.REVEAL
      rw [hp.2]
      exact hl
    | interest => exact hl
    | resistance => exact hl
    | conversion => exact hl
    | objection => exact hl

/-- Witness for C3: a first escalation with draw 0 (below the 5% table
entry) reaches REVEAL, and a later tracker call keeps the level there. -/
theorem c3_reveal_is_terminal_witness :
    (applyTensionOp (applyTensionOp {} (TensionOp.escalation ("SEXUAL") 0))
        TensionOp.interest).current_level = TensionLevel.REVEAL := by
  refine c3_reveal_is_terminal.2 _
    (TReachable.step (TensionOp.escalation ("SEXUAL") 0) TReachable.init) ?_ TensionOp.interest
  show (record_escalation {} ("SEXUAL") 0).1.current_level = TensionLevel.REVEAL
  unfold record_escalation
  rw [if_neg (by decide), if_pos ?_]
  unfold should_reveal_of get_reveal_probability
  norm_num

-- ===========================================================================
-- Claim C4
-- ===========================================================================

/-- Claim C4, counterexample: at escalation count 6 the lookup returns the
default 0.90, not the count-5 value 0.75, so counts beyond the table do not
reuse the count-5 ceiling. -/
theorem c4_counterexample :
    get_reveal_probability 6 = 9/10 ∧ get_reveal_probability 5 = 3/4
    ∧ get_reveal_probability 6 ≠ get_reveal_probability 5 := by
  refine ⟨rfl, rfl, ?_⟩
  norm_num [get_reveal_probability]

/-- Beyond the five-entry table the lookup yields `DEFAULT_PROBABILITY`. -/
theorem get_reveal_probability_of_ge_six (k : Nat) (h : 6 ≤ k) :
    get_reveal_probability k = 9/10 := by
  unfold get_reveal_probability
  rw [if_neg (by omega), if_neg (by omega), if_neg (by omega), if_neg (by omega),
      if_neg (by omega)]

/-- One-step monotonicity of the reveal-probability table. -/
theorem get_reveal_probability_le_succ (n : Nat) (h : 1 ≤ n) :
    get_reveal_probability n ≤ get_reveal_probability (n + 1) := by
  match n, h with
  | 1, _ => norm_num [get_reveal_probability]
  | 2, _ => norm_num [get_reveal_probability]
  | 3, _ => norm_num [get_reveal_probability]
  | 4, _ => norm_num [get_reveal_probability]
  | 5, _ => norm_num [get_reveal_probability]
  | (m+6), _ =>
    rw [get_reveal_probability_of_ge_six (m+6) (by omega),
        get_reveal_probability_of_ge_six (m+6+1) (by omega)]

/-- The reveal-probability lookup is monotone on counts ≥ 1. -/
theorem get_reveal_probability_mono (j k : Nat) (h1 : 1 ≤ j) (h2 : j ≤ k) :
    get_reveal_probability j ≤ get_reveal_probability k := by
  induction k, h2 using Nat.le_induction with
  | base => exact le_refl _
  | succ k hk ih => exact le_trans ih (get_reveal_probability_le_succ k (le_trans h1 hk))

/-- Claim C4 (amended): the lookup returns 0.05, 0.10, 0.25, 0.50, 0.75 for
counts 1–5 and the default ceiling 0.90 for every count ≥ 6 (the source's
`DEFAULT_PROBABILITY`, not the count-5 value), and it is monotone
non-decreasing on counts ≥ 1. -/
theorem c4_probability_table :
    get_reveal_probability 1 = 1/20 ∧ get_reveal_probability 2 = 1/10
    ∧ get_reveal_probability 3 = 1/4 ∧ get_reveal_probability 4 = 1/2
    ∧ get_reveal_probability 5 = 3/4
    ∧ (∀ k : Nat, 6 ≤ k → get_reveal_probability k = 9/10)
    ∧ (∀ j k : Nat, 1 ≤ j → j ≤ k →
        get_reveal_probability j ≤ get_reveal_probability k) :=
  ⟨rfl, rfl, rfl, rfl, rfl, get_reveal_probability_of_ge_six, get_reveal_probability_mono⟩

/-- Witness for C4 (amended) at concrete counts. -/
theorem c4_probability_table_witness :
    get_reveal_probability 7 = 9/10
    ∧ get_reveal_probability 2 ≤ get_reveal_probability 5 :=
  ⟨c4_probability_table.2.2.2.2.2.1 7 (by norm_num),
   c4_probability_table.2.2.2.2.2.2 2 5 (by norm_num) (by norm_num)⟩

-- ===========================================================================
-- Claim C5
-- ===========================================================================

/-- A list is pairwise related under a total relation. -/
theorem pairwise_of_all {α : Type} {R : α → α → Prop} (h : ∀ a b, R a b) :
    ∀ l : List α, List.Pairwise R l := by
  intro l
  induction l with
  | nil => exact List.Pairwise.nil
  | cons a as ih => exact List.Pairwise.cons (fun b _ => h a b) ih

/-- `l[-n:]` of a list no longer than `n` is the list itself. -/
theorem lastN_of_le {α : Type} {n : Nat} {l : List α} (h : l.length ≤ n) :
    lastN n l = l := by
  unfold lastN
  rw [Nat.sub_eq_zero_of_le h, List.drop_zero]

/-- `l[-n:]` has at most `n` entries. -/
theorem lastN_length_le {α : Type} (n : Nat) (l : List α) : (lastN n l).length ≤ n := by
  unfold lastN
  rw [List.length_drop]
  omega

/-- Entries of `l[-n:]` are entries of `l`. -/
theorem lastN_subset {α : Type} (n : Nat) (l : List α) :
    ∀ a ∈ lastN n l, a ∈ l := by
  intro a ha
  exact List.drop_subset _ _ ha

/-- Trimming, appending, and trimming again is the same as trimming once at
the end. -/
theorem lastN_append_lastN {α : Type} (n : Nat) (xs ys : List α) :
    lastN n (lastN n xs ++ ys) = lastN n (xs ++ ys) := by
  unfold lastN
  by_cases h : n ≤ xs.length
  · have e1 : (List.drop (xs.length - n) xs ++ ys).length - n = ys.length := by
      rw [List.length_append, List.length_drop]
      omega
    rw [e1, ← List.drop_append_of_le_length (show xs.length - n ≤ xs.length by omega),
        List.drop_drop]
    have e2 : xs.length - n + ys.length = (xs ++ ys).length - n := by
      rw [List.length_append]
      omega
    rw [e2]
  · rw [Nat.sub_eq_zero_of_le (show xs.length ≤ n by omega), List.drop_zero]

/-- `add_phrase` rejects a candidate too similar to a stored phrase. -/
theorem add_phrase_rejects_similar (sim : String → String → ℚ) (l : List String) (p : String)
    (h : l.any (fun existing => 4/5 < sim (normalize_phrase p) existing) = true) :
    add_phrase sim l p = (false, l) := by
  simp only [add_phrase]
  by_cases he : (normalize_phrase p).data.isEmpty
  · rw [if_pos he]
  · rw [if_neg he, if_pos h]

/-- `add_phrase` rejects a candidate that normalizes to the empty string. -/
theorem add_phrase_rejects_empty (sim : String → String → ℚ) (l : List String) (p : String)
    (h : (normalize_phrase p).data.isEmpty = true) :
    add_phrase sim l p = (false, l) := by
  simp only [add_phrase]
  rw [if_pos h]

/-- `add_phrase` appends a dissimilar nonempty candidate and trims to the
most recent 50. -/
theorem add_phrase_accepts (sim : String → String → ℚ) (l : List String) (p : String)
    (he : (normalize_phrase p).data.isEmpty = false)
    (h : l.any (fun existing => 4/5 < sim (normalize_phrase p) existing) = false) :
    add_phrase sim l p = (true, lastN 50 (l ++ [normalize_phrase p])) := by
  simp only [add_phrase]
  rw [if_neg (by simp [he]), if_neg (by simp [h])]

/-- Folding accepted insertions from any small enough store keeps exactly
the most recent 50 normalized phrases. -/
theorem run_phrases_from (sim : String → String → ℚ) :
    ∀ (ps st : List String),
      st.length ≤ 50 →
      (∀ p ∈ ps, (normalize_phrase p).data.isEmpty = false) →
      (∀ p ∈ ps, ∀ e ∈ st, sim (normalize_phrase p) e ≤ 4/5) →
      List.Pairwise (fun a b => sim (normalize_phrase b) (normalize_phrase a) ≤ 4/5) ps →
      List.foldl (fun acc p => (add_phrase sim acc p).2) st ps
        = lastN 50 (st ++ ps.map normalize_phrase) := by
  intro ps
  induction ps with
  | nil =>
    intro st hlen _ _ _
    simpa using (lastN_of_le hlen).symm
  | cons p rest ih =>
    intro st hlen hne hdis hpw
    have hne_p : (normalize_phrase p).data.isEmpty = false := hne p (by simp)
    have hany : st.any (fun existing => 4/5 < sim (normalize_phrase p) existing) = false := by
      rw [List.any_eq_false]
      intro e hmem
      simpa using not_lt.mpr (hdis p (by simp) e hmem)
    have hstep : (add_phrase sim st p).2 = lastN 50 (st ++ [normalize_phrase p]) := by
      rw [add_phrase_accepts sim st p hne_p hany]
    rw [List.foldl_cons, hstep]
    rw [ih (lastN 50 (st ++ [normalize_phrase p])) (lastN_length_le _ _)
        (fun q hq => hne q (by simp [hq]))
        ?_ ((List.pairwise_cons.mp hpw).2)]
    · rw [lastN_append_lastN, List.append_assoc, List.singleton_append, List.map_cons]
    · intro q hq e he
      rcases (List.mem_append.mp (lastN_subset _ _ e he)) with hst | hp
      · exact hdis q (by simp [hq]) e hst
      · have : e = normalize_phrase p := by simpa using hp
        rw [this]
        exact (List.pairwise_cons.mp hpw).1 q hq

/-- Claim C5 (amended): `add_phrase` rejects (returning false, storing
nothing) a candidate when some stored phrase has similarity above 0.8 to
the normalized candidate — and also when the candidate normalizes to the
empty string (the counterexample to the unamended claim); otherwise it
appends the normalized candidate and trims the store to the most recent
50.  After 60 sequential insertions of nonempty, mutually dissimilar
phrases into an empty store, exactly the 50 most recently accepted
normalized phrases remain, in order.  The similarity function is the
pluggable parameter `sim`; all parts hold for every `sim`. -/
theorem c5_add_phrase_dedup :
    (∀ (sim : String → String → ℚ) (l : List String) (p : String),
        l.any (fun existing => 4/5 < sim (normalize_phrase p) existing) = true →
        add_phrase sim l p = (false, l))
    ∧ (∀ (sim : String → String → ℚ) (l : List String) (p : String),
        (normalize_phrase p).data.isEmpty = true →
        add_phrase sim l p = (false, l))
    ∧ (∀ (sim : String → String → ℚ) (l : List String) (p : String),
        (normalize_phrase p).data.isEmpty = false →
        l.any (fun existing => 4/5 < sim (normalize_phrase p) existing) = false →
        add_phrase sim l p = (true, lastN 50 (l ++ [normalize_phrase p])))
    ∧ (∀ (sim : String → String → ℚ) (ps : List String),
        ps.length = 60 →
        (∀ p ∈ ps, (normalize_phrase p).data.isEmpty = false) →
        List.Pairwise (fun a b => sim (normalize_phrase b) (normalize_phrase a) ≤ 4/5) ps →
        run_phrases sim ps = (ps.map normalize_phrase).drop 10
        ∧ (run_phrases sim ps).length = 50) := by
  refine ⟨add_phrase_rejects_similar, add_phrase_rejects_empty, add_phrase_accepts, ?_⟩
  intro sim ps hlen hne hpw
  have hrun : run_phrases sim ps = (ps.map normalize_phrase).drop 10 := by
    unfold run_phrases
    rw [run_phrases_from sim ps [] (by simp) hne (by simp) hpw]
    unfold lastN
    rw [List.nil_append, List.length_map, hlen]
  refine ⟨hrun, ?_⟩
  rw [hrun, List.length_drop, List.length_map, hlen]

/-- Claim C5, counterexample: the empty candidate has no similar stored
phrase (the store is empty), yet `add_phrase` rejects it instead of
appending it, because the normalized candidate is empty. -/
theorem c5_counterexample :
    (([] : List String).any
        (fun existing => 4/5 < simZero (normalize_phrase ("")) existing) = false)
    ∧ add_phrase simZero [] ("") = (false, [])
    ∧ add_phrase simZero [] ("") ≠ (true, lastN 50 ([] ++ [normalize_phrase ("")])) := by
  refine ⟨rfl, rfl, ?_⟩
  decide

/-- Witness for C5 at 60 concrete pairwise-distinct phrases. -/
theorem c5_add_phrase_dedup_witness :
    run_phrases simZero phrases60 = (phrases60.map normalize_phrase).drop 10
    ∧ (run_phrases simZero phrases60).length = 50 :=
  c5_add_phrase_dedup.2.2.2 simZero phrases60 (by decide) (by decide)
    (pairwise_of_all (fun a b => by norm_num [simZero]) phrases60)

-- ===========================================================================
-- Claim C6
-- ===========================================================================

/-- Claim C6: `detect_intent` is total and returns exactly one intent with
confidence in (0,1]; when the priority scan finds a first match `(name, m)`
the result carries that name and confidence
`min(0.5 + 0.5 * matched_len / max(msg_len, 1), 1.0)` computed on the
lowercased, stripped message; when no pattern matches, the result is
GENERIC with confidence 0.5.  The pattern table is a parameter, so this
holds for the source's `INTENT_PRIORITY` / `INTENT_PATTERNS` tables. -/
theorem c6_detect_intent_contract :
    ∀ (table : List (String × List PatternFn)) (message : String),
      (0 < (detect_intent table message).confidence
        ∧ (detect_intent table message).confidence ≤ 1)
      ∧ (firstIntentMatch table (trimStr (toLowerStr message)) = none →
          detect_intent table message
            = { name := ("GENERIC"), confidence := 1/2, raw_match := none })
      ∧ (∀ intentName m : String,
          firstIntentMatch table (trimStr (toLowerStr message)) = some (intentName, m) →
          detect_intent table message
            = { name := intentName,
                confidence := min ((1:ℚ)/2 + ((m.length : ℚ)
                  / ((max (trimStr (toLowerStr message)).length 1 : Nat) : ℚ)) * (1/2)) 1,
                raw_match := some m }) := by
  intro table message
  rcases h : firstIntentMatch table (trimStr (toLowerStr message)) with _ | ⟨intentName, m⟩
  · have hd : detect_intent table message
        = { name := ("GENERIC"), confidence := 1/2, raw_match := none } := by
      simp only [detect_intent]
      rw [h]
    refine ⟨?_, fun _ => hd, ?_⟩
    · rw [hd]
      norm_num
    · intro n' m' hsome
      exact absurd hsome (by simp)
  · have hd : detect_intent table message
        = { name := intentName,
            confidence := min ((1:ℚ)/2 + ((m.length : ℚ)
              / ((max (trimStr (toLowerStr message)).length 1 : Nat) : ℚ)) * (1/2)) 1,
            raw_match := some m } := by
      simp only [detect_intent]
      rw [h]
    have hnn : (0:ℚ) ≤ ((m.length : ℚ)
        / ((max (trimStr (toLowerStr message)).length 1 : Nat) : ℚ)) * (1/2) := by
      positivity
    refine ⟨?_, ?_, ?_⟩
    · rw [hd]
      constructor
      · exact lt_min (by linarith) one_pos
      · exact min_le_right _ _
    · intro hnone
      exact absurd hnone (by simp)
    · intro n' m' hsome
      simp only [Option.some.injEq, Prod.mk.injEq] at hsome
      obtain ⟨rfl, rfl⟩ := hsome
      exact hd

/-- Witness for C6: the one-pattern table matches the message `hey` with
span `hey`. -/
theorem c6_detect_intent_contract_witness :
    detect_intent greetTable ("hey")
      = { name := ("GREETING"),
          confidence := min ((1:ℚ)/2 + ((("hey" : String).length : ℚ)
            / ((max (trimStr (toLowerStr ("hey"))).length 1 : Nat) : ℚ)) * (1/2)) 1,
          raw_match := some ("hey") } :=
  (c6_detect_intent_contract greetTable ("hey")).2.2 ("GREETING") ("hey") (by decide)

-- ===========================================================================
-- Claim C7
-- ===========================================================================

/-- Claim C7: after every `MoodState.update` — for any prior mood state,
any message text, any intent label, and any contents of the
`BORING_OPENERS` / `CREEPY_WORDS` constant lists — each of engagement,
warmth and patience lies in [0,1]: the final clamp bounds all three
regardless of the accumulated deltas, so the invariant holds after every
update of any sequence. -/
theorem c7_mood_in_unit_interval (boringOpeners creepyWords : List String)
    (m : MoodState) (fanMessage intent : String) :
    (0 ≤ (MoodState.update boringOpeners creepyWords m fanMessage intent).engagement
      ∧ (MoodState.update boringOpeners creepyWords m fanMessage intent).engagement ≤ 1)
    ∧ (0 ≤ (MoodState.update boringOpeners creepyWords m fanMessage intent).warmth
      ∧ (MoodState.update boringOpeners creepyWords m fanMessage intent).warmth ≤ 1)
    ∧ (0 ≤ (MoodState.update boringOpeners creepyWords m fanMessage intent).patience
      ∧ (MoodState.update boringOpeners creepyWords m fanMessage intent).patience ≤ 1) := by
  refine ⟨⟨?_, ?_⟩, ⟨?_, ?_⟩, ⟨?_, ?_⟩⟩
  all_goals first
    | exact le_max_left 0 _
    | exact max_le (by norm_num) (min_le_left 1 _)

-- ===========================================================================
-- Claim C9
-- ===========================================================================

/-- Claim C9, counterexample: a durable record corrupted into a JSON value
that is not an object (here the number 5) makes `data["fan_id"]` raise
`TypeError`, which the `except (json.JSONDecodeError, KeyError)` clause
does not catch, so `get_or_create_memory` propagates an error instead of
returning a fresh record. -/
theorem c9_counterexample :
    get_or_create_memory ("abc") (StoredFile.content (Json.num 5))
      = Except.error PyErr.typeError := rfl

/-- Claim C9 (amended): a missing file, a file that is not valid JSON, and
a JSON object missing the `fan_id` key all yield a fresh empty record from
`get_or_create_memory` without an error; only a file whose JSON parses to a
non-object propagates (the counterexample). -/
theorem c9_corrupt_record_recovery (fanId : String) :
    get_or_create_memory fanId StoredFile.missing = Except.ok (freshMemory fanId)
    ∧ get_or_create_memory fanId StoredFile.unreadable = Except.ok (freshMemory fanId)
    ∧ (∀ fields : List (String × Json), lookupField fields ("fan_id") = none →
        get_or_create_memory fanId (StoredFile.content (Json.obj fields))
          = Except.ok (freshMemory fanId)) := by
  refine ⟨rfl, rfl, ?_⟩
  intro fields h
  simp only [get_or_create_memory, get_memory, memory_from_dict, h]

/-- Witness for C9 (amended): an empty JSON object (no `fan_id` key). -/
theorem c9_corrupt_record_recovery_witness :
    get_or_create_memory ("abc") (StoredFile.content (Json.obj []))
      = Except.ok (freshMemory ("abc")) :=
  (c9_corrupt_record_recovery ("abc")).2.2 [] rfl
